import Mathlib

/-!
Shallow embedding of the two driver programs of `openarm_can`
(`src/apps/query_control_mode.cpp` and `src/apps/set_control_mode.cpp`).
Each program is modelled as the ordered list of bus/registry operations it
performs inside its `try` block, together with an exit code and the console
flags the claims talk about.  Library enum values that live outside `src/`
(`MotorControlMode::minMode`, `MotorControlMode::maxMode`, `RID::CTRL_MODE`)
are kept as parameters of the model.
-/

namespace OpenArmCan

/-- Callback mode of a motor (`openarm::damiao_motor::CallbackMode`). -/
inductive CallbackMode where
  | STATE
  | PARAM
  deriving DecidableEq, Repr

/-- Motor class constants used by the motor tables of both programs. -/
inductive MotorType where
  | DM8009
  | DM4340
  | DM4310
  deriving DecidableEq, Repr

/-- One observable operation of a driver program: bus I/O, registry
initialization, or the console report of a rejected operator value. -/
inductive Event where
  | openBus (iface : String) (fd : Bool)
  | initArmMotors (types : List MotorType) (sendIds recvIds : List Nat)
  | initGripperMotor (t : MotorType) (sendId recvId : Nat)
  | setCallbackModeAll (m : CallbackMode)
  | queryParamAll (rid : Nat)
  | recvAll (timeoutMs : Nat)
  | writeParamAll (rid : Nat) (value : Int)
  | disableAll
  | reportInvalidMode (v : Int)
  deriving DecidableEq, Repr

/-- Arm motor classes, `motor_types` in both programs (7 entries). -/
def armMotorTypes : List MotorType :=
  [.DM8009, .DM8009, .DM4340, .DM4340, .DM4310, .DM4310, .DM4310]

/-- `send_can_ids` of both programs. -/
def armSendIds : List Nat := [0x01, 0x02, 0x03, 0x04, 0x05, 0x06, 0x07]

/-- `recv_can_ids` of both programs. -/
def armRecvIds : List Nat := [0x11, 0x12, 0x13, 0x14, 0x15, 0x16, 0x17]

/-- Gripper outbound address (`init_gripper_motor(..., 0x08, 0x18)`). -/
def gripperSendId : Nat := 0x08

/-- Gripper inbound address. -/
def gripperRecvId : Nat := 0x18

/-- ASCII `std::tolower` as applied by both programs to the fd-mode
argument (C locale: only `A`..`Z` change). -/
def cppToLower (c : Char) : Char :=
  if 'A' ≤ c ∧ c ≤ 'Z' then Char.ofNat (c.toNat + 32) else c

/-- The `can_fd` flag computed from `argv`: with exactly three arguments it
is the lowercased third argument compared against `"true"`, otherwise
`false` (lines 34-42 of both programs). -/
def canFdOf (args : List String) : Bool :=
  if args.length = 3 then
    decide ((args.getD 2 "").toList.map cppToLower = "true".toList)
  else
    false

/-- The three operations of one query pass: `set_callback_mode_all(PARAM)`,
`query_param_all(rid)`, `recv_all(2000)` (the `print_control_mode` lambda in
the set program, lines 89-93; lines 89-92 in the query program). -/
def printControlModeOps (rid : Nat) : List Event :=
  [.setCallbackModeAll .PARAM, .queryParamAll rid, .recvAll 2000]

/-- Bus/registry setup common to both programs: open the channel, register
the 7 arm motors, register the gripper. -/
def setupOps (iface : String) (canFd : Bool) : List Event :=
  [.openBus iface canFd,
   .initArmMotors armMotorTypes armSendIds armRecvIds,
   .initGripperMotor .DM4310 gripperSendId gripperRecvId]

/-- Shutdown sequence of both programs: restore STATE callback mode,
`disable_all()`, `recv_all(1000)`. -/
def cleanupOps : List Event :=
  [.setCallbackModeAll .STATE, .disableAll, .recvAll 1000]

/-- Operations of the `try` block of `query_control_mode.cpp`. -/
def queryControlModeTryOps (iface : String) (canFd : Bool) (rid : Nat) : List Event :=
  setupOps iface canFd ++ printControlModeOps rid ++ cleanupOps

/-- Operations of the `try` block of `set_control_mode.cpp`: first query
pass, then either `write_param_all` + `recv_all(2000)` (when
`min_mode_value < target < max_mode_value`) or the invalid-value report,
then unconditionally a second query pass and the cleanup sequence. -/
def setControlModeTryOps (iface : String) (canFd : Bool) (minMode maxMode : Int)
    (rid : Nat) (target : Int) : List Event :=
  setupOps iface canFd ++ printControlModeOps rid ++
    (if minMode < target ∧ target < maxMode then
      [.writeParamAll rid target, .recvAll 2000]
    else
      [.reportInvalidMode target]) ++
    printControlModeOps rid ++ cleanupOps

/-- Outcome of a program run: exit code, operations actually performed,
whether the usage line was printed, whether the top-level catch printed an
error. -/
structure ProgResult where
  exitCode : Int
  ops : List Event
  usageShown : Bool
  errorShown : Bool
  deriving DecidableEq, Repr

/-- Execute a `try` block whose operations may raise a transport fault at
position `fault`: a fault inside the block truncates the performed
operations there, is reported by the top-level `catch`, and makes the
program return `-1`; otherwise all operations run and the program returns
`0`. -/
def runTryBlock (ops : List Event) (fault : Option Nat) : ProgResult :=
  match fault with
  | none => ⟨0, ops, false, false⟩
  | some k => if k < ops.length then ⟨-1, ops.take k, false, true⟩ else ⟨0, ops, false, false⟩

/-- `main` of `query_control_mode.cpp`: with a bad argument count print
usage and return `1` without touching the bus; otherwise run the `try`
block. -/
def queryControlModeMain (args : List String) (rid : Nat) (fault : Option Nat) : ProgResult :=
  if args.length = 2 ∨ args.length = 3 then
    runTryBlock (queryControlModeTryOps (args.getD 1 "") (canFdOf args) rid) fault
  else
    ⟨1, [], true, false⟩

/-- `main` of `set_control_mode.cpp`; `target` is the integer read from the
operator inside the `try` block. -/
def setControlModeMain (args : List String) (minMode maxMode : Int) (rid : Nat)
    (target : Int) (fault : Option Nat) : ProgResult :=
  if args.length = 2 ∨ args.length = 3 then
    runTryBlock (setControlModeTryOps (args.getD 1 "") (canFdOf args) minMode maxMode rid target)
      fault
  else
    ⟨1, [], true, false⟩

/-- Number of `query_param_all` operations in a trace. -/
def countQueries : List Event → Nat
  | [] => 0
  | .queryParamAll _ :: rest => countQueries rest + 1
  | _ :: rest => countQueries rest

/-- Number of `write_param_all` operations in a trace. -/
def countWrites : List Event → Nat
  | [] => 0
  | .writeParamAll _ _ :: rest => countWrites rest + 1
  | _ :: rest => countWrites rest

/-- Scans a trace tracking the callback mode last broadcast to the motors
(`none` before any broadcast); `true` iff every `query_param_all` happens
while the motors are in PARAM mode. -/
def goodQueryOrder : Option CallbackMode → List Event → Bool
  | _, [] => true
  | _, .setCallbackModeAll m :: rest => goodQueryOrder (some m) rest
  | some .PARAM, .queryParamAll _ :: rest => goodQueryOrder (some .PARAM) rest
  | _, .queryParamAll _ :: _ => false
  | cur, _ :: rest => goodQueryOrder cur rest

/-- `true` iff every `query_param_all` is immediately followed by
`recv_all(2000)`. -/
def queryThenRecv2000 : List Event → Bool
  | [] => true
  | .queryParamAll _ :: .recvAll t :: rest => decide (t = 2000) && queryThenRecv2000 rest
  | .queryParamAll _ :: _ => false
  | _ :: rest => queryThenRecv2000 rest

/-- `true` iff the trace ends with the cleanup sequence
STATE-restore, `disable_all`, `recv_all(1000)`. -/
def endsWithCleanup : List Event → Bool
  | [.setCallbackModeAll .STATE, .disableAll, .recvAll 1000] => true
  | _ :: rest => endsWithCleanup rest
  | [] => false

/-- The "Available modes" listing: the loop
`for(i = minMode+1; i < maxMode; ++i)` prints each code with its name
(lines 53-57 resp. 54-58); `name` stands for the library's
`GetMotorControlModeString`. -/
def availableModesListing (name : Nat → String) (minMode maxMode : Nat) : List (Nat × String) :=
  (List.range' (minMode + 1) (maxMode - (minMode + 1))).map (fun i => (i, name i))

/-- `std::round` for a nonnegative stored value: round half away from zero. -/
def cppRound (v : ℚ) : ℤ := ⌊v + 1 / 2⌋

/-- Control-mode code rendered by `query_control_mode.cpp` (line 96):
`static_cast<uint8_t>(std::round(value))`. -/
def queryControlModeCode (v : ℚ) : ℕ := (cppRound v).toNat % 256

/-- Control-mode code rendered by `set_control_mode.cpp` (line 97):
`static_cast<uint8_t>(value)`, truncation toward zero. -/
def setControlModeCode (v : ℚ) : ℕ := (⌊v⌋).toNat % 256

end OpenArmCan

namespace OpenArmCan

theorem writeParamAll_mem_setOps (iface : String) (fd : Bool) (minMode maxMode : Int)
    (rid : Nat) (v w : Int) :
    Event.writeParamAll rid w ∈ setControlModeTryOps iface fd minMode maxMode rid v ↔
      ((minMode < v ∧ v < maxMode) ∧ w = v) := by
  by_cases h : minMode < v ∧ v < maxMode <;>
    simp [setControlModeTryOps, setupOps, printControlModeOps, cleanupOps, h]

/-- Claim C1: in the set-control-mode session the write is issued iff
`minMode < v < maxMode`, strictly on both sides: the boundary values are
rejected and `minMode+1`, `maxMode-1` are accepted. -/
theorem c1_validation (iface : String) (fd : Bool) (minMode maxMode : Int) (rid : Nat) (v : Int)
    (hrange : minMode + 1 < maxMode) :
    (Event.writeParamAll rid v ∈ setControlModeTryOps iface fd minMode maxMode rid v ↔
      minMode < v ∧ v < maxMode) ∧
    Event.writeParamAll rid minMode ∉ setControlModeTryOps iface fd minMode maxMode rid minMode ∧
    Event.writeParamAll rid maxMode ∉ setControlModeTryOps iface fd minMode maxMode rid maxMode ∧
    Event.writeParamAll rid (minMode + 1) ∈
      setControlModeTryOps iface fd minMode maxMode rid (minMode + 1) ∧
    Event.writeParamAll rid (maxMode - 1) ∈
      setControlModeTryOps iface fd minMode maxMode rid (maxMode - 1) := by
  refine ⟨?_, ?_, ?_, ?_, ?_⟩
  · rw [writeParamAll_mem_setOps]
    simp
  · rw [writeParamAll_mem_setOps]
    omega
  · rw [writeParamAll_mem_setOps]
    omega
  · rw [writeParamAll_mem_setOps]
    omega
  · rw [writeParamAll_mem_setOps]
    omega

/-- Witness for C1 at `minMode = 0`, `maxMode = 5`, `rid = 33`, `v = 3`. -/
theorem c1_validation_witness :
    (Event.writeParamAll 33 3 ∈ setControlModeTryOps "can0" false 0 5 33 3 ↔
      (0 : Int) < 3 ∧ (3 : Int) < 5) ∧
    Event.writeParamAll 33 0 ∉ setControlModeTryOps "can0" false 0 5 33 0 ∧
    Event.writeParamAll 33 5 ∉ setControlModeTryOps "can0" false 0 5 33 5 ∧
    Event.writeParamAll 33 (0 + 1) ∈ setControlModeTryOps "can0" false 0 5 33 (0 + 1) ∧
    Event.writeParamAll 33 (5 - 1) ∈ setControlModeTryOps "can0" false 0 5 33 (5 - 1) :=
  c1_validation "can0" false 0 5 33 3 (by decide)

/-- Claim C8: both programs configure the specified motor tables — arm
outbound 0x01..0x07 paired in order with inbound 0x11..0x17, gripper
0x08/0x18 — and all addresses are pairwise distinct. -/
theorem c8_motor_tables (iface : String) (fd : Bool) (minMode maxMode : Int)
    (rid : Nat) (v : Int) :
    armSendIds.length = 7 ∧ armRecvIds.length = 7 ∧
    armSendIds.zip armRecvIds =
      [(0x01, 0x11), (0x02, 0x12), (0x03, 0x13), (0x04, 0x14),
       (0x05, 0x15), (0x06, 0x16), (0x07, 0x17)] ∧
    gripperSendId = 0x08 ∧ gripperRecvId = 0x18 ∧
    ((armSendIds ++ [gripperSendId]) ++ (armRecvIds ++ [gripperRecvId])).Nodup ∧
    Event.initArmMotors armMotorTypes armSendIds armRecvIds ∈
      queryControlModeTryOps iface fd rid ∧
    Event.initGripperMotor .DM4310 gripperSendId gripperRecvId ∈
      queryControlModeTryOps iface fd rid ∧
    Event.initArmMotors armMotorTypes armSendIds armRecvIds ∈
      setControlModeTryOps iface fd minMode maxMode rid v ∧
    Event.initGripperMotor .DM4310 gripperSendId gripperRecvId ∈
      setControlModeTryOps iface fd minMode maxMode rid v := by
  refine ⟨by decide, by decide, by decide, by decide, by decide, by decide, ?_, ?_, ?_, ?_⟩ <;>
    simp [queryControlModeTryOps, setControlModeTryOps, setupOps]

/-- Claim C9: the CAN-FD flag is enabled iff the second CLI argument,
lowercased, is exactly `"true"`; other strings and a missing argument give
`false`. -/
theorem c9_can_fd_flag (args : List String) :
    (canFdOf args = true ↔
      args.length = 3 ∧ (args.getD 2 "").toList.map cppToLower = "true".toList) ∧
    canFdOf ["prog", "can0"] = false ∧
    canFdOf ["prog", "can0", "true"] = true ∧
    canFdOf ["prog", "can0", "TRUE"] = true ∧
    canFdOf ["prog", "can0", "1"] = false ∧
    canFdOf ["prog", "can0", "yes"] = false ∧
    canFdOf ["prog", "can0", "TRUE "] = false := by
  refine ⟨?_, by decide, by decide, by decide, by decide, by decide, by decide⟩
  unfold canFdOf
  split <;> simp_all

end OpenArmCan

namespace OpenArmCan

/-- Counterexample to C2 as stated: at `minMode = 0`, `maxMode = 5`,
operator value `0` (invalid), the write is skipped and the value reported,
yet the trace still contains two query passes — the second query is not
skipped. -/
theorem c2_counterexample :
    countWrites (setControlModeTryOps "can0" false 0 5 33 0) = 0 ∧
    Event.reportInvalidMode 0 ∈ setControlModeTryOps "can0" false 0 5 33 0 ∧
    countQueries (setControlModeTryOps "can0" false 0 5 33 0) ≠ 1 ∧
    countQueries (setControlModeTryOps "can0" false 0 5 33 0) = 2 := by
  decide

/-- Claim C2 amended: on an invalid value the session skips the write and
reports the rejected value, but the second query pass still runs; on a
valid value it performs Write-All then the second query pass. -/
theorem c2_amended_flow (iface : String) (fd : Bool) (minMode maxMode : Int)
    (rid : Nat) (v : Int) :
    (¬(minMode < v ∧ v < maxMode) →
      countWrites (setControlModeTryOps iface fd minMode maxMode rid v) = 0 ∧
      Event.reportInvalidMode v ∈ setControlModeTryOps iface fd minMode maxMode rid v ∧
      countQueries (setControlModeTryOps iface fd minMode maxMode rid v) = 2) ∧
    ((minMode < v ∧ v < maxMode) →
      setControlModeTryOps iface fd minMode maxMode rid v =
        setupOps iface fd ++ printControlModeOps rid ++
          [Event.writeParamAll rid v, Event.recvAll 2000] ++
          printControlModeOps rid ++ cleanupOps ∧
      Event.reportInvalidMode v ∉ setControlModeTryOps iface fd minMode maxMode rid v ∧
      countQueries (setControlModeTryOps iface fd minMode maxMode rid v) = 2) := by
  constructor
  · intro h
    refine ⟨?_, ?_, ?_⟩ <;>
      simp [setControlModeTryOps, setupOps, printControlModeOps, cleanupOps, h,
        countWrites, countQueries]
  · intro h
    refine ⟨?_, ?_, ?_⟩ <;>
      simp [setControlModeTryOps, setupOps, printControlModeOps, cleanupOps, h,
        countQueries]

/-- Witness for the amended C2: invalid branch at value `7`, valid branch
at value `3` (`minMode = 0`, `maxMode = 5`). -/
theorem c2_amended_flow_witness :
    (countWrites (setControlModeTryOps "can0" false 0 5 33 7) = 0 ∧
      Event.reportInvalidMode 7 ∈ setControlModeTryOps "can0" false 0 5 33 7 ∧
      countQueries (setControlModeTryOps "can0" false 0 5 33 7) = 2) ∧
    (setControlModeTryOps "can0" false 0 5 33 3 =
        setupOps "can0" false ++ printControlModeOps 33 ++
          [Event.writeParamAll 33 3, Event.recvAll 2000] ++
          printControlModeOps 33 ++ cleanupOps ∧
      Event.reportInvalidMode 3 ∉ setControlModeTryOps "can0" false 0 5 33 3 ∧
      countQueries (setControlModeTryOps "can0" false 0 5 33 3) = 2) :=
  ⟨(c2_amended_flow "can0" false 0 5 33 7).1 (by decide),
   (c2_amended_flow "can0" false 0 5 33 3).2 (by decide)⟩

/-- Claim C3: in every query pass of both programs the PARAM callback mode
is broadcast strictly before `query_param_all`, every query is collected
with the fixed 2000 ms deadline, and no query is issued while the motors
are still in STATE mode. -/
theorem c3_param_mode_before_query (iface : String) (fd : Bool) (minMode maxMode : Int)
    (rid : Nat) (v : Int) :
    (goodQueryOrder none (queryControlModeTryOps iface fd rid) = true ∧
      queryThenRecv2000 (queryControlModeTryOps iface fd rid) = true) ∧
    (goodQueryOrder none (setControlModeTryOps iface fd minMode maxMode rid v) = true ∧
      queryThenRecv2000 (setControlModeTryOps iface fd minMode maxMode rid v) = true) := by
  refine ⟨⟨rfl, rfl⟩, ?_, ?_⟩ <;>
    by_cases h : minMode < v ∧ v < maxMode <;>
      simp [setControlModeTryOps, setupOps, printControlModeOps, cleanupOps, h,
        goodQueryOrder, queryThenRecv2000]

/-- The set program's operation list always ends with the cleanup
sequence, whichever validation branch was taken. -/
theorem endsWithCleanup_setOps (iface : String) (fd : Bool) (minMode maxMode : Int)
    (rid : Nat) (v : Int) :
    endsWithCleanup (setControlModeTryOps iface fd minMode maxMode rid v) = true := by
  by_cases h : minMode < v ∧ v < maxMode <;>
    simp [setControlModeTryOps, setupOps, printControlModeOps, cleanupOps, h,
      endsWithCleanup]

/-- Claim C4: on every non-throwing run with a good argument count, both
programs end their operation sequence with the cleanup actions
STATE-restore, `disable_all`, `recv_all(1000)` — in the set program also on
the branch where operator validation failed. -/
theorem c4_cleanup_always_runs (args : List String) (minMode maxMode : Int)
    (rid : Nat) (v : Int) (hargs : args.length = 2 ∨ args.length = 3) :
    endsWithCleanup (queryControlModeMain args rid none).ops = true ∧
    endsWithCleanup (setControlModeMain args minMode maxMode rid v none).ops = true ∧
    endsWithCleanup (setControlModeMain args minMode maxMode rid minMode none).ops = true := by
  have hq : (queryControlModeMain args rid none).ops =
      queryControlModeTryOps (args.getD 1 "") (canFdOf args) rid := by
    simp [queryControlModeMain, hargs, runTryBlock]
  have hs : ∀ t, (setControlModeMain args minMode maxMode rid t none).ops =
      setControlModeTryOps (args.getD 1 "") (canFdOf args) minMode maxMode rid t := by
    intro t
    simp [setControlModeMain, hargs, runTryBlock]
  rw [hq, hs, hs]
  exact ⟨rfl, endsWithCleanup_setOps _ _ _ _ _ _, endsWithCleanup_setOps _ _ _ _ _ _⟩

/-- Witness for C4: two-argument invocation, `minMode = 0`, `maxMode = 5`,
operator value `9` (invalid). -/
theorem c4_cleanup_always_runs_witness :
    endsWithCleanup (queryControlModeMain ["prog", "can0"] 33 none).ops = true ∧
    endsWithCleanup (setControlModeMain ["prog", "can0"] 0 5 33 9 none).ops = true ∧
    endsWithCleanup (setControlModeMain ["prog", "can0"] 0 5 33 0 none).ops = true :=
  c4_cleanup_always_runs ["prog", "can0"] 0 5 33 9 (by decide)

end OpenArmCan

namespace OpenArmCan

/-- A fault inside the `try` block truncates the performed operations and
yields the error exit. -/
theorem runTryBlock_fault (ops : List Event) (k : Nat) (hk : k < ops.length) :
    runTryBlock ops (some k) = ⟨-1, ops.take k, false, true⟩ := by
  simp [runTryBlock, hk]

/-- Counterexample to C5 as stated: with a valid operator value `3`
(`minMode = 0`, `maxMode = 5`) the fault-free run exits `0`; a transport
fault at trace position 12 — the cleanup `disable_all`, after the write had
already been performed — is reported, but the exit code becomes `-1`
instead of the main operation's result `0`. -/
theorem c5_counterexample :
    (setControlModeMain ["prog", "can0"] 0 5 33 3 none).exitCode = 0 ∧
    (setControlModeTryOps "can0" false 0 5 33 3).get? 12 = some Event.disableAll ∧
    countWrites (setControlModeMain ["prog", "can0"] 0 5 33 3 (some 12)).ops = 1 ∧
    (setControlModeMain ["prog", "can0"] 0 5 33 3 (some 12)).errorShown = true ∧
    (setControlModeMain ["prog", "can0"] 0 5 33 3 (some 12)).exitCode = -1 := by
  decide

/-- Claim C5 amended: a transport fault during cleanup is caught by the
same top-level handler as a main-operation fault — it is reported and the
process exits `-1` even when the main operation had already succeeded; the
exit status does not preserve the main operation's outcome. -/
theorem c5_amended_cleanup_fault (args : List String) (minMode maxMode : Int)
    (rid : Nat) (v : Int) (k j : Nat)
    (hargs : args.length = 2 ∨ args.length = 3)
    (hk : k < (setControlModeTryOps (args.getD 1 "") (canFdOf args) minMode maxMode rid v).length)
    (hj : j < (queryControlModeTryOps (args.getD 1 "") (canFdOf args) rid).length) :
    (setControlModeMain args minMode maxMode rid v (some k)).exitCode = -1 ∧
    (setControlModeMain args minMode maxMode rid v (some k)).errorShown = true ∧
    (setControlModeMain args minMode maxMode rid v (some k)).ops =
      (setControlModeTryOps (args.getD 1 "") (canFdOf args) minMode maxMode rid v).take k ∧
    (queryControlModeMain args rid (some j)).exitCode = -1 ∧
    (queryControlModeMain args rid (some j)).errorShown = true ∧
    (queryControlModeMain args rid (some j)).ops =
      (queryControlModeTryOps (args.getD 1 "") (canFdOf args) rid).take j := by
  have h1 : setControlModeMain args minMode maxMode rid v (some k) =
      ⟨-1, (setControlModeTryOps (args.getD 1 "") (canFdOf args) minMode maxMode rid
        v).take k, false, true⟩ := by
    unfold setControlModeMain
    rw [if_pos hargs]
    exact runTryBlock_fault _ _ hk
  have h2 : queryControlModeMain args rid (some j) =
      ⟨-1, (queryControlModeTryOps (args.getD 1 "") (canFdOf args) rid).take j,
        false, true⟩ := by
    unfold queryControlModeMain
    rw [if_pos hargs]
    exact runTryBlock_fault _ _ hj
  rw [h1, h2]
  exact ⟨rfl, rfl, rfl, rfl, rfl, rfl⟩

/-- Witness for the amended C5: fault at the cleanup `disable_all` of the
set program (position 12) and at the cleanup `disable_all` of the query
program (position 7). -/
theorem c5_amended_cleanup_fault_witness :
    (setControlModeMain ["prog", "can0"] 0 5 33 3 (some 12)).exitCode = -1 ∧
    (setControlModeMain ["prog", "can0"] 0 5 33 3 (some 12)).errorShown = true ∧
    (setControlModeMain ["prog", "can0"] 0 5 33 3 (some 12)).ops =
      (setControlModeTryOps "can0" false 0 5 33 3).take 12 ∧
    (queryControlModeMain ["prog", "can0"] 33 (some 7)).exitCode = -1 ∧
    (queryControlModeMain ["prog", "can0"] 33 (some 7)).errorShown = true ∧
    (queryControlModeMain ["prog", "can0"] 33 (some 7)).ops =
      (queryControlModeTryOps "can0" false 33).take 7 :=
  c5_amended_cleanup_fault ["prog", "can0"] 0 5 33 3 12 7 (by decide) (by decide) (by decide)

/-- Claim C6: a bad argument count makes both programs print usage and
return `1` with no bus operation performed; an exception escaping the main
operation is caught at the top level, reported, and the process returns the
distinct status `-1`, the performed operations being exactly the prefix
before the fault (no retry). -/
theorem c6_exit_discipline (args : List String) (minMode maxMode : Int)
    (rid : Nat) (v : Int) (k j : Nat) (fault : Option Nat) :
    (args.length ≠ 2 ∧ args.length ≠ 3 →
      queryControlModeMain args rid fault = ⟨1, [], true, false⟩ ∧
      setControlModeMain args minMode maxMode rid v fault = ⟨1, [], true, false⟩) ∧
    (args.length = 2 ∨ args.length = 3 →
      (j < (queryControlModeTryOps (args.getD 1 "") (canFdOf args) rid).length →
        (queryControlModeMain args rid (some j)).exitCode = -1 ∧
        (queryControlModeMain args rid (some j)).errorShown = true ∧
        (queryControlModeMain args rid (some j)).ops =
          (queryControlModeTryOps (args.getD 1 "") (canFdOf args) rid).take j) ∧
      (k < (setControlModeTryOps (args.getD 1 "") (canFdOf args) minMode maxMode rid
            v).length →
        (setControlModeMain args minMode maxMode rid v (some k)).exitCode = -1 ∧
        (setControlModeMain args minMode maxMode rid v (some k)).errorShown = true ∧
        (setControlModeMain args minMode maxMode rid v (some k)).ops =
          (setControlModeTryOps (args.getD 1 "") (canFdOf args) minMode maxMode rid
            v).take k)) ∧
    ((1 : Int) ≠ 0 ∧ (-1 : Int) ≠ 0 ∧ (-1 : Int) ≠ 1) := by
  refine ⟨?_, ?_, by decide, by decide, by decide⟩
  · intro h
    constructor <;> simp [queryControlModeMain, setControlModeMain, h.1, h.2]
  · intro hargs
    constructor
    · intro hj
      have h2 : queryControlModeMain args rid (some j) =
          ⟨-1, (queryControlModeTryOps (args.getD 1 "") (canFdOf args) rid).take j,
            false, true⟩ := by
        unfold queryControlModeMain
        rw [if_pos hargs]
        exact runTryBlock_fault _ _ hj
      rw [h2]
      exact ⟨rfl, rfl, rfl⟩
    · intro hk
      have h1 : setControlModeMain args minMode maxMode rid v (some k) =
          ⟨-1, (setControlModeTryOps (args.getD 1 "") (canFdOf args) minMode maxMode rid
            v).take k, false, true⟩ := by
        unfold setControlModeMain
        rw [if_pos hargs]
        exact runTryBlock_fault _ _ hk
      rw [h1]
      exact ⟨rfl, rfl, rfl⟩

/-- Witness for C6: bad argument count `["prog"]`, good invocation
`["prog", "can0"]` with faults at position 2 in either program. -/
theorem c6_exit_discipline_witness :
    (queryControlModeMain ["prog"] 33 none = ⟨1, [], true, false⟩ ∧
      setControlModeMain ["prog"] 0 5 33 3 none = ⟨1, [], true, false⟩) ∧
    ((queryControlModeMain ["prog", "can0"] 33 (some 2)).exitCode = -1 ∧
      (queryControlModeMain ["prog", "can0"] 33 (some 2)).errorShown = true ∧
      (queryControlModeMain ["prog", "can0"] 33 (some 2)).ops =
        (queryControlModeTryOps "can0" false 33).take 2) ∧
    ((setControlModeMain ["prog", "can0"] 0 5 33 3 (some 2)).exitCode = -1 ∧
      (setControlModeMain ["prog", "can0"] 0 5 33 3 (some 2)).errorShown = true ∧
      (setControlModeMain ["prog", "can0"] 0 5 33 3 (some 2)).ops =
        (setControlModeTryOps "can0" false 0 5 33 3).take 2) :=
  ⟨(c6_exit_discipline ["prog"] 0 5 33 3 2 2 none).1 (by decide),
   ((c6_exit_discipline ["prog", "can0"] 0 5 33 3 2 2 none).2.1 (by decide)).1 (by decide),
   ((c6_exit_discipline ["prog", "can0"] 0 5 33 3 2 2 none).2.1 (by decide)).2 (by decide)⟩

end OpenArmCan

namespace OpenArmCan

/-- Claim C7: the "Available modes" listing enumerates exactly the integer
codes strictly between `minMode` and `maxMode`, each paired with its
human-readable name. -/
theorem c7_available_modes (name : Nat → String) (minMode maxMode : Nat)
    (i : Nat) (s : String) :
    (i, s) ∈ availableModesListing name minMode maxMode ↔
      minMode < i ∧ i < maxMode ∧ s = name i := by
  unfold availableModesListing
  rw [List.mem_map]
  constructor
  · rintro ⟨a, ha, hpair⟩
    rw [List.mem_range'_1] at ha
    injection hpair with hai hs
    subst hai
    exact ⟨by omega, by omega, hs.symm⟩
  · rintro ⟨h1, h2, h3⟩
    exact ⟨i, by rw [List.mem_range'_1]; omega, by rw [h3]⟩

end OpenArmCan

namespace OpenArmCan

/-- For a fractional part of at least one half, rounding lands one above
the floor. -/
theorem cppRound_eq_floor_add_one (v : ℚ) (hfrac : 1 / 2 ≤ Int.fract v) :
    cppRound v = ⌊v⌋ + 1 := by
  unfold cppRound
  rw [Int.floor_eq_iff]
  have h1 : Int.fract v < 1 := Int.fract_lt_one v
  have h2 : (⌊v⌋ : ℚ) + Int.fract v = v := Int.floor_add_fract v
  constructor
  · push_cast
    linarith
  · push_cast
    linarith

/-- Claim C10: the two programs decode the same stored parameter value
differently: for every nonnegative stored value whose fractional part is at
least one half, the rounded 8-bit code shown by the query program differs
from the truncated 8-bit code shown by the set program. -/
theorem c10_round_vs_truncate (v : ℚ) (h0 : 0 ≤ v) (hfrac : 1 / 2 ≤ Int.fract v) :
    queryControlModeCode v ≠ setControlModeCode v := by
  unfold queryControlModeCode setControlModeCode
  rw [cppRound_eq_floor_add_one v hfrac]
  have hge : 0 ≤ ⌊v⌋ := Int.floor_nonneg.mpr h0
  omega

/-- Witness for C10 at the stored value 8/5 = 1.6: the query program shows
code 2, the set program code 1. -/
theorem c10_round_vs_truncate_witness :
    (0 : ℚ) ≤ 8 / 5 ∧ (1 : ℚ) / 2 ≤ Int.fract (8 / 5 : ℚ) ∧
    queryControlModeCode (8 / 5) ≠ setControlModeCode (8 / 5) := by
  have h0 : (0 : ℚ) ≤ 8 / 5 := by norm_num
  have hfl : ⌊(8 / 5 : ℚ)⌋ = 1 := by
    rw [Int.floor_eq_iff]
    norm_num
  have hfrac : (1 : ℚ) / 2 ≤ Int.fract (8 / 5 : ℚ) := by
    rw [Int.fract, hfl]
    norm_num
  exact ⟨h0, hfrac, c10_round_vs_truncate (8 / 5) h0 hfrac⟩

end OpenArmCan
